import Mathlib

/-!
Shallow embedding of `src/src/libpmemobj/obj.c` (PMDK transactional object
store, 2014-2015 vintage) and proofs about its pool-lifecycle and
object-directory operations.

Machine integers are modelled as `Nat` (with explicit `% 2 ^ 64` where the
C code can overflow a `uint64_t`); C strings are lists of their non-NUL
bytes; external collaborators (`list_insert_new`, `list_realloc`, the
allocator, the registry) are taken as function parameters, since only their
call sites live in `obj.c`.
-/

namespace PMDKObj

/-- A persistent object identifier, `PMEMoid` from `libpmemobj.h`:
a pair of the derived pool uuid and a byte offset; `off = 0` is null. -/
structure PMEMoid where
  pool_uuid_lo : Nat
  off : Nat
deriving DecidableEq, Repr

/-- The null object identifier `OID_NULL`. -/
def OID_NULL : PMEMoid := ⟨0, 0⟩

/-- The `EINVAL` errno value (symbolic in the C source; the concrete value
is immaterial to the proofs). -/
def EINVAL : Nat := 22

/-! ## run_id arithmetic (obj.c lines 305-309)

`pop->run_id` is a `uint64_t`; `pop->run_id += 2; if (pop->run_id == 0)
pop->run_id += 2;` wraps modulo `2 ^ 64`. -/

/-- The run_id update performed by `pmemobj_map_common` on every
create/open, transcribed from obj.c lines 306-308. -/
def bumpRunId (r : Nat) : Nat :=
  let r1 := (r + 2) % 2 ^ 64
  if r1 = 0 then (r1 + 2) % 2 ^ 64 else r1

/-! ## Durable-write trace of the create path

`pmemobj_map_common(fd, layout, poolsize, rdonly, empty = 1)` performs, in
program order, a fixed sequence of persistent-memory writes, `pmem_msync`
calls and external subsystem calls (obj.c lines 234-351).  Each event below
corresponds to one step of that source sequence. -/

/-- Events of the successful create path of `pmemobj_map_common`:
persistent writes, the msync making each durable, and external calls. -/
inductive CEv where
  /-- populate the pool header incl. checksum, obj.c lines 235-254 -/
  | writeHeader
  /-- `pmem_msync(hdrp, sizeof (*hdrp))`, line 257 -/
  | msyncHeader
  /-- `pop->run_id = 0`, line 260 -/
  | writeRunIdZero
  /-- `pmem_msync(&pop->run_id, ...)`, line 261 -/
  | msyncRunIdZero
  /-- `memset(lanes_layout, 0, ...)`, lines 264-268 -/
  | writeLanes
  /-- `pmem_msync(lanes_layout, ...)`, lines 269-270 -/
  | msyncLanes
  /-- `memset(store, 0, obj_store_size)`, lines 273-279 -/
  | writeStore
  /-- `pmem_msync(store, obj_store_size)`, line 280 -/
  | msyncStore
  /-- zero descriptor and fill layout/offset/size fields, lines 283-292 -/
  | writeDescFields
  /-- `heap_init(pop)`, line 294 -/
  | heapInitCall
  /-- `util_checksum(dscp, OBJ_DSC_P_SIZE, &pop->checksum, 1)`, line 299 -/
  | writeDescChecksum
  /-- `pmem_msync(dscp, OBJ_DSC_P_SIZE)`, line 302 -/
  | msyncDesc
  /-- `pop->run_id += 2` (and wrap fixup), lines 306-308 -/
  | writeRunIdBump
  /-- `pmem_msync(&pop->run_id, ...)`, line 309 -/
  | msyncRunIdBump
  /-- `lane_boot(pop)`, line 343 -/
  | laneBootCall
  /-- `heap_boot(pop)`, line 348 -/
  | heapBootCall
deriving DecidableEq, BEq, Repr

/-- The create path of `pmemobj_map_common` in program order
(obj.c lines 234-351, `empty = 1`, no failures). -/
def createPathTrace : List CEv :=
  [ .writeHeader, .msyncHeader,
    .writeRunIdZero, .msyncRunIdZero,
    .writeLanes, .msyncLanes,
    .writeStore, .msyncStore,
    .writeDescFields, .heapInitCall, .writeDescChecksum, .msyncDesc,
    .writeRunIdBump, .msyncRunIdBump,
    .laneBootCall, .heapBootCall ]

/-- Event `a` occurs strictly before event `b` in the create path. -/
def before (a b : CEv) : Prop :=
  createPathTrace.indexOf a < createPathTrace.indexOf b

instance (a b : CEv) : Decidable (before a b) := by
  unfold before; infer_instance

/-- The ordering asserted by the spec for the create path: lanes, object
store, descriptor+checksum, heap init, header+checksum, each durable
before the next starts, with the header msync the last durable write. -/
def specCreateOrder : Prop :=
  before .msyncLanes .writeStore ∧
  before .msyncStore .writeDescFields ∧
  before .msyncDesc .heapInitCall ∧
  before .heapInitCall .writeHeader ∧
  before .msyncLanes .msyncHeader ∧
  before .msyncStore .msyncHeader ∧
  before .msyncDesc .msyncHeader

/-- The claim that `run_id` is bumped and made durable before the boot
calls, and that a crash during boot leaves an odd persistent `run_id`
(the persistent value there is `bumpRunId` of the prior even value). -/
def specBootRunIdOdd : Prop :=
  before .msyncRunIdBump .laneBootCall ∧
  before .msyncRunIdBump .heapBootCall ∧
  ∀ r, r < 2 ^ 64 → r % 2 = 0 → bumpRunId r % 2 = 1

end PMDKObj

namespace PMDKObj

/-- C1: the create-path durable order asserted by the spec {zero lanes, zero object
store, write descriptor + checksum, init heap, write header + checksum,
header last} does not hold of obj.c: the header is written and msynced
first (lines 235-257), before the lanes are zeroed. -/
theorem c1_spec_order_refuted : ¬ specCreateOrder := by
  unfold specCreateOrder
  decide

/-- C1 (amended): in the create path of obj.c the durable sequence is: header
(with checksum), run_id := 0, zero lanes, zero object store, then the
descriptor fields are written, the heap is initialized, and the descriptor
checksum is written and msynced; each msync completes before the write of
the next region starts, except that the descriptor fields become durable
only with the descriptor msync after `heap_init`.  The descriptor (not the
header) is the last durable write of the create-specific sequence. -/
theorem c1_create_durable_order :
    before .msyncHeader .writeRunIdZero ∧
    before .msyncRunIdZero .writeLanes ∧
    before .msyncLanes .writeStore ∧
    before .msyncStore .writeDescFields ∧
    before .writeDescFields .heapInitCall ∧
    before .heapInitCall .writeDescChecksum ∧
    before .writeDescChecksum .msyncDesc ∧
    before .msyncDesc .writeRunIdBump := by
  decide

/-- C2: the claim is refuted: `run_id` is indeed made durable before the
boot calls, but the increment is by 2, so a crash during boot leaves the
persistent `run_id` even, never odd; at prior `run_id = 0` (a fresh pool)
the value during boot is `bumpRunId 0 = 2`. -/
theorem c2_boot_run_id_odd_refuted : ¬ specBootRunIdOdd := by
  unfold specBootRunIdOdd
  intro h
  have h2 := h.2.2 0 (by norm_num) (by norm_num)
  have : bumpRunId 0 % 2 = 0 := by decide
  omega

/-- C2 (amended): `run_id` is incremented and made durable before
`lane_boot` and `heap_boot` are called, and a crash during that boot phase
leaves the persistent `run_id` even (the prior even value plus two), not
odd. -/
theorem c2_run_id_durable_before_boot :
    before .msyncRunIdBump .laneBootCall ∧
    before .msyncRunIdBump .heapBootCall ∧
    ∀ r, r % 2 = 0 → bumpRunId r % 2 = 0 := by
  refine ⟨by decide, by decide, fun r hr => ?_⟩
  unfold bumpRunId
  simp only
  split <;> omega

/-- C2 witness: instantiation of the amended claim at `r = 4`. -/
theorem c2_witness : (4 : Nat) % 2 = 0 ∧ bumpRunId 4 % 2 = 0 :=
  ⟨by decide, c2_run_id_durable_before_boot.2.2 4 (by decide)⟩

/-- C3: from an even 64-bit `run_id`, the update of obj.c lines 306-308
yields an even, non-zero value, and absent wraparound it is exactly the
previous value plus 2 (so two successive clean opens differ by 2). -/
theorem c3_run_id_even_nonzero (r : Nat) (hlt : r < 2 ^ 64) (he : r % 2 = 0) :
    bumpRunId r % 2 = 0 ∧ bumpRunId r ≠ 0 ∧
      (r + 2 < 2 ^ 64 → bumpRunId r = r + 2) := by
  unfold bumpRunId
  simp only
  split <;> omega

/-- C3 witness: instantiation at `r = 0`. -/
theorem c3_witness :
    (0 : Nat) < 2 ^ 64 ∧ (0 : Nat) % 2 = 0 ∧
      (bumpRunId 0 % 2 = 0 ∧ bumpRunId 0 ≠ 0 ∧
        (0 + 2 < 2 ^ 64 → bumpRunId 0 = 0 + 2)) :=
  ⟨by norm_num, by decide, c3_run_id_even_nonzero 0 (by norm_num) (by decide)⟩

/-- C9: the create path durably zeroes `run_id` (obj.c lines 260-261)
before the common increment step (lines 306-309), and the increment of 0
gives 2, so a pool returned by a successful `pmemobj_create` has
`run_id = 2`. -/
theorem c9_create_run_id_is_two :
    before .msyncRunIdZero .writeRunIdBump ∧ bumpRunId 0 = 2 := by
  decide

end PMDKObj

namespace PMDKObj

/-! ## uuid_lo derivation (obj.c lines 111-122)

The header uuid is a 16-byte array, modelled as a function from byte index
to byte value. -/

/-- `pmemobj_get_uuid_lo`, transcribed from obj.c lines 111-122:
`for (i = 0; i < 8; i++) uuid_lo = (uuid_lo << 8) | (uuid[i] ^ uuid[8+i]);` -/
def pmemobj_get_uuid_lo (uuid : Nat → Nat) : Nat :=
  (List.range 8).foldl (fun acc i => (acc <<< 8) ||| (uuid i ^^^ uuid (8 + i))) 0

/-- The derivation as the spec describes it: XOR the low 8 bytes with the
high 8 bytes, then byte-reverse the resulting 8-byte array into a `u64`
(byte `i` of the array lands at significance `256 ^ (7 - i)`). -/
def uuid_lo_spec (uuid : Nat → Nat) : Nat :=
  ∑ i ∈ Finset.range 8, (uuid i ^^^ uuid (8 + i)) * 256 ^ (7 - i)

/-- Shifting a byte in with `<<< 8` and `|||` is a Horner step when the
incoming byte fits in 8 bits. -/
theorem shiftLeft_or_byte (a b : Nat) (hb : b < 2 ^ 8) :
    (a <<< 8) ||| b = a * 256 + b := by
  rw [Nat.shiftLeft_eq]
  calc a * 2 ^ 8 ||| b = 2 ^ 8 * a ||| b := by rw [Nat.mul_comm]
    _ = 2 ^ 8 * a + b := (Nat.mul_add_lt_is_or hb a).symm
    _ = a * 256 + b := by ring

/-- A shift-or fold over bytes equals the corresponding Horner fold. -/
theorem horner_foldl (l : List Nat) (f : Nat → Nat)
    (hf : ∀ i ∈ l, f i < 2 ^ 8) (a : Nat) :
    l.foldl (fun acc i => (acc <<< 8) ||| f i) a =
      l.foldl (fun acc i => acc * 256 + f i) a := by
  induction l generalizing a with
  | nil => rfl
  | cons x xs ih =>
      simp only [List.foldl_cons]
      rw [shiftLeft_or_byte a (f x) (hf x (by simp))]
      exact ih (fun i hi => hf i (by simp [hi])) _

/-- C4: for every 16-byte uuid, `pmemobj_get_uuid_lo` returns the
byte-reversal of the 8-byte bytewise XOR of `uuid[0..7]` with
`uuid[8..15]`. -/
theorem c4_get_uuid_lo (uuid : Nat → Nat) (hb : ∀ i, i < 16 → uuid i < 256) :
    pmemobj_get_uuid_lo uuid = uuid_lo_spec uuid := by
  have h256 : (256 : Nat) = 2 ^ 8 := by norm_num
  have hc : ∀ i ∈ List.range 8, uuid i ^^^ uuid (8 + i) < 2 ^ 8 := by
    intro i hi
    rw [List.mem_range] at hi
    exact Nat.xor_lt_two_pow (h256 ▸ hb i (by omega)) (h256 ▸ hb (8 + i) (by omega))
  have h1 : pmemobj_get_uuid_lo uuid
      = List.foldl (fun acc i => acc * 256 + (uuid i ^^^ uuid (8 + i))) 0
          (List.range 8) :=
    horner_foldl (List.range 8) (fun i => uuid i ^^^ uuid (8 + i)) hc 0
  rw [h1]
  have h2 : List.range 8 = [0, 1, 2, 3, 4, 5, 6, 7] := rfl
  rw [h2]
  unfold uuid_lo_spec
  norm_num [Finset.sum_range_succ]
  ring

/-- Example 16-byte uuid (byte `i` has value `i`) used to witness C4. -/
def uuidEx : Nat → Nat := fun i => i

/-- C4 witness: instantiation at a concrete uuid. -/
theorem c4_witness : pmemobj_get_uuid_lo uuidEx = uuid_lo_spec uuidEx :=
  c4_get_uuid_lo uuidEx (fun _ h => Nat.lt_trans h (by norm_num))

end PMDKObj

namespace PMDKObj

/-! ## Object store model

The persistent object store (`struct object_store` from obj.h, used
throughout obj.c): an array of per-type list heads plus the root list
head.  An out-of-band (OOB) header precedes every payload; obj.c reads it
through `OOB_HEADER_FROM_OID(pop, oid)`, which we model as a function from
the payload offset `oid.off` to the header stored there. -/

/-- The fields of `struct oob_header` that obj.c reads or writes. -/
structure OobHeader where
  internal_type : Nat
  user_type : Nat
  size : Nat
  pe_next : PMEMoid
  pe_prev : PMEMoid
deriving DecidableEq, Repr

/-- `struct list_head`: `pe_first` is null (off = 0) iff the circular
list is empty. -/
structure ListHead where
  pe_first : PMEMoid
deriving DecidableEq, Repr

/-- `struct object_store`: one list head per user type plus the root
list head. -/
structure ObjectStore where
  bytype : Nat → ListHead
  root : ListHead

/-- The parts of a mapped pool that the object-directory operations of
obj.c consult: the object store and the OOB header at each payload
offset. -/
structure PoolState where
  store : ObjectStore
  oob : Nat → OobHeader

/-- Modelled from the spec: `OP_ALLOC`, the `internal_type` tag of live
objects, is declared in obj.h, which is not part of this repository
snapshot; its concrete value is immaterial to every claim proved here. -/
def OP_ALLOC : Nat := 1

/-- A constructor callback acting on the OOB header of the fresh object and
payload bytes (payload modelled as a function from byte index to byte). -/
def CtorModel : Type :=
  OobHeader × (Nat → Nat) → OobHeader × (Nat → Nat)

/-- `pop->memcpy_persist(ptr, src, len)` on a payload: the first `len`
bytes become the source bytes, the rest are untouched. -/
def memcpy_persist_model (dest : Nat → Nat) (src : List Nat) (len : Nat) :
    Nat → Nat :=
  fun i => if i < len then src.getD i 0 else dest i

/-- `pop->memset_persist(ptr, c, len)` on a payload. -/
def memset_persist_model (dest : Nat → Nat) (c len : Nat) : Nat → Nat :=
  fun i => if i < len then c else dest i

/-- `constructor_alloc_bytype` (obj.c lines 573-590): tag the OOB header
with `OP_ALLOC` and the user type, then run the user constructor if
present. -/
def constructor_alloc_bytype (t : Nat) (uctor : Option CtorModel) :
    CtorModel :=
  fun om =>
    let om1 := ({ om.1 with internal_type := OP_ALLOC, user_type := t }, om.2)
    match uctor with
    | none => om1
    | some c => c om1

/-- `constructor_zalloc` (obj.c lines 532-543): zero the payload. -/
def constructor_zalloc (len : Nat) : CtorModel :=
  fun om => (om.1, memset_persist_model om.2 0 len)

/-- `constructor_strdup` (obj.c lines 740-757): tag the OOB header, then
copy `len` bytes of the source string into the payload. -/
def constructor_strdup (t : Nat) (s : List Nat) : CtorModel :=
  fun om =>
    ({ om.1 with internal_type := OP_ALLOC, user_type := t },
      memcpy_persist_model om.2 s s.length)

/-- The type of the external `list_insert_new(pop, lhead, .., size, ctor,
carg)` collaborator: given the pool, the selected bytype index, the
requested size and the effective constructor, it returns the new oid and
the updated pool. -/
def ListInsertNew : Type :=
  PoolState → Nat → Nat → CtorModel → PMEMoid × PoolState

/-- `pmemobj_alloc_construct` (obj.c lines 595-619).  The result triple
is (returned oid, errno set by this function if any, resulting pool
state). -/
def pmemobj_alloc_construct (ntypes : Nat) (lin : ListInsertNew)
    (pop : PoolState) (size : Nat) (type_num : Int)
    (uctor : Option CtorModel) : PMEMoid × Option Nat × PoolState :=
  if type_num < 0 ∨ (ntypes : Int) ≤ type_num then (OID_NULL, some EINVAL, pop)
  else
    let r := lin pop type_num.toNat size
      (constructor_alloc_bytype type_num.toNat uctor)
    (r.1, none, r.2)

/-- `pmemobj_alloc` (obj.c lines 515-521). -/
def pmemobj_alloc (ntypes : Nat) (lin : ListInsertNew) (pop : PoolState)
    (size : Nat) (type_num : Int) : PMEMoid × Option Nat × PoolState :=
  pmemobj_alloc_construct ntypes lin pop size type_num none

/-- `pmemobj_zalloc` (obj.c lines 548-559). -/
def pmemobj_zalloc (ntypes : Nat) (lin : ListInsertNew) (pop : PoolState)
    (size : Nat) (type_num : Int) : PMEMoid × Option Nat × PoolState :=
  pmemobj_alloc_construct ntypes lin pop size type_num
    (some (constructor_zalloc size))

/-- `pmemobj_strdup` (obj.c lines 762-782); the C string is modelled as
the list of its bytes before the NUL, so `strlen s = s.length`. -/
def pmemobj_strdup (ntypes : Nat) (lin : ListInsertNew) (pop : PoolState)
    (s : List Nat) (type_num : Int) : PMEMoid × Option Nat × PoolState :=
  if type_num < 0 ∨ (ntypes : Int) ≤ type_num then (OID_NULL, some EINVAL, pop)
  else
    pmemobj_alloc_construct ntypes lin pop s.length type_num
      (some (constructor_strdup type_num.toNat s))

/-- `pmemobj_first` (obj.c lines 933-946); returns (oid, errno set). -/
def pmemobj_first (ntypes : Nat) (pop : PoolState) (type_num : Int) :
    PMEMoid × Option Nat :=
  if type_num < 0 ∨ (ntypes : Int) ≤ type_num then (OID_NULL, some EINVAL)
  else ((pop.store.bytype type_num.toNat).pe_first, none)

end PMDKObj

namespace PMDKObj

/-- C5: for every out-of-range `type_num`, the allocation operations
(`pmemobj_alloc`, `pmemobj_zalloc`, `pmemobj_alloc_construct`,
`pmemobj_strdup`) and `pmemobj_first` set errno to `EINVAL`, return the
null OID, and leave the pool state unmodified, whatever the external list
primitive would do. -/
theorem c5_invalid_type_einval (ntypes : Nat) (lin : ListInsertNew)
    (pop : PoolState) (size : Nat) (type_num : Int)
    (uctor : Option CtorModel) (s : List Nat)
    (h : type_num < 0 ∨ (ntypes : Int) ≤ type_num) :
    pmemobj_alloc_construct ntypes lin pop size type_num uctor
        = (OID_NULL, some EINVAL, pop) ∧
    pmemobj_alloc ntypes lin pop size type_num
        = (OID_NULL, some EINVAL, pop) ∧
    pmemobj_zalloc ntypes lin pop size type_num
        = (OID_NULL, some EINVAL, pop) ∧
    pmemobj_strdup ntypes lin pop s type_num
        = (OID_NULL, some EINVAL, pop) ∧
    pmemobj_first ntypes pop type_num = (OID_NULL, some EINVAL) := by
  refine ⟨?_, ?_, ?_, ?_, ?_⟩ <;>
    simp only [pmemobj_alloc_construct, pmemobj_alloc, pmemobj_zalloc,
      pmemobj_strdup, pmemobj_first] <;>
    rw [if_pos h]

/-- A pool state with empty lists, used as a concrete witness input. -/
def popEmpty : PoolState :=
  { store := { bytype := fun _ => ⟨OID_NULL⟩, root := ⟨OID_NULL⟩ },
    oob := fun _ => ⟨0, 0, 0, OID_NULL, OID_NULL⟩ }

/-- An external list primitive that inserts nothing, used as a concrete
witness input. -/
def linNop : ListInsertNew := fun pop _ _ _ => (OID_NULL, pop)

/-- C5 witness: instantiation at `type_num = -1` with 8 types. -/
theorem c5_witness :
    pmemobj_alloc_construct 8 linNop popEmpty 4 (-1) none
        = (OID_NULL, some EINVAL, popEmpty) ∧
    pmemobj_alloc 8 linNop popEmpty 4 (-1)
        = (OID_NULL, some EINVAL, popEmpty) ∧
    pmemobj_zalloc 8 linNop popEmpty 4 (-1)
        = (OID_NULL, some EINVAL, popEmpty) ∧
    pmemobj_strdup 8 linNop popEmpty [65] (-1)
        = (OID_NULL, some EINVAL, popEmpty) ∧
    pmemobj_first 8 popEmpty (-1) = (OID_NULL, some EINVAL) :=
  c5_invalid_type_einval 8 linNop popEmpty 4 (-1) none [65] (by decide)

end PMDKObj

namespace PMDKObj

/-! ## Cursor and size operations (obj.c lines 809-973) -/

/-- `pmemobj_next` (obj.c lines 951-973).  The process-wide registry
(`cuckoo_get(pools, ...)`) is modelled as an optional-valued map from
`pool_uuid_lo` to pool state; a failed lookup (which the C code only
asserts against) yields `none`. -/
def pmemobj_next (pools : Nat → Option PoolState) (oid : PMEMoid) :
    Option PMEMoid :=
  if oid.off = 0 then some OID_NULL
  else
    match pools oid.pool_uuid_lo with
    | none => none
    | some pop =>
      let pobj := pop.oob oid.off
      if pobj.pe_next.off ≠ (pop.store.bytype pobj.user_type).pe_first.off
      then some pobj.pe_next
      else some OID_NULL

/-- `pmemobj_alloc_usable_size` (obj.c lines 812-826), parametric in the
registry, the external `pmalloc_usable_size`, and the `OBJ_OOB_OFFSET`
constant from obj.h. -/
def pmemobj_alloc_usable_size (pools : Nat → Option PoolState)
    (pmallocUsable : PoolState → Nat → Nat) (oobOffset : Nat)
    (oid : PMEMoid) : Option Nat :=
  if oid.off = 0 then some 0
  else
    match pools oid.pool_uuid_lo with
    | none => none
    | some pop => some (pmallocUsable pop (oid.off - oobOffset) - oobOffset)

/-- `pmemobj_root_size` (obj.c lines 890-901). -/
def pmemobj_root_size (pop : PoolState) : Nat :=
  if pop.store.root.pe_first.off ≠ 0 then
    (pop.oob pop.store.root.pe_first.off).size
  else 0

/-- `pmemobj_root` (obj.c lines 906-928), parametric in the external
`obj_alloc_root` and `obj_realloc_root` collaborators (`none` models
`obj_realloc_root` failing, upon which the C code returns `OID_NULL`).
The root mutex is irrelevant in this sequential model. -/
def pmemobj_root (allocRoot : PoolState → Nat → PoolState)
    (reallocRoot : PoolState → Nat → Option PoolState)
    (pop : PoolState) (size : Nat) : PMEMoid × PoolState :=
  if pop.store.root.pe_first.off = 0 then
    let pop1 := allocRoot pop size
    (pop1.store.root.pe_first, pop1)
  else if size > pmemobj_root_size pop then
    match reallocRoot pop size with
    | none => (OID_NULL, pop)
    | some pop1 => (pop1.store.root.pe_first, pop1)
  else (pop.store.root.pe_first, pop)

end PMDKObj

namespace PMDKObj

/-- C6: `pmemobj_next` on the null OID returns the null OID; on a live
OID it reads the `user_type` of the OOB header to find the owning bytype list
and returns the OOB `pe_next`, except that it returns the null OID when
that next has the offset of the `pe_first` of the list (end of the circular
list). -/
theorem c6_next_spec (pools : Nat → Option PoolState) (oid : PMEMoid) :
    (oid.off = 0 → pmemobj_next pools oid = some OID_NULL) ∧
    (∀ pop, oid.off ≠ 0 → pools oid.pool_uuid_lo = some pop →
      pmemobj_next pools oid =
        some (if (pop.oob oid.off).pe_next.off
                  = (pop.store.bytype (pop.oob oid.off).user_type).pe_first.off
              then OID_NULL
              else (pop.oob oid.off).pe_next)) := by
  constructor
  · intro h
    simp [pmemobj_next, h]
  · intro pop hoff hpools
    simp only [pmemobj_next, if_neg hoff, hpools]
    by_cases hnext : (pop.oob oid.off).pe_next.off
        = (pop.store.bytype (pop.oob oid.off).user_type).pe_first.off
    · simp [hnext]
    · simp [hnext]

/-- A pool whose bytype-3 list holds the ring 100 → 200 → 100, used as a
concrete witness input. -/
def popRing : PoolState :=
  { store :=
      { bytype := fun t => if t = 3 then ⟨⟨7, 100⟩⟩ else ⟨OID_NULL⟩,
        root := ⟨OID_NULL⟩ },
    oob := fun off =>
      if off = 100 then ⟨OP_ALLOC, 3, 0, ⟨7, 200⟩, ⟨7, 200⟩⟩
      else if off = 200 then ⟨OP_ALLOC, 3, 0, ⟨7, 100⟩, ⟨7, 100⟩⟩
      else ⟨0, 0, 0, OID_NULL, OID_NULL⟩ }

/-- A registry holding `popRing` at uuid 7, used as a concrete witness
input. -/
def poolsEx : Nat → Option PoolState :=
  fun u => if u = 7 then some popRing else none

/-- C6 witness: on the null OID the null OID comes back; in the middle of
the ring the next element comes back; at the last element (whose next is
`pe_first`) the null OID comes back. -/
theorem c6_witness :
    pmemobj_next poolsEx ⟨7, 0⟩ = some OID_NULL ∧
    pmemobj_next poolsEx ⟨7, 100⟩ = some ⟨7, 200⟩ ∧
    pmemobj_next poolsEx ⟨7, 200⟩ = some OID_NULL := by
  refine ⟨(c6_next_spec poolsEx ⟨7, 0⟩).1 rfl, ?_, ?_⟩
  · have h := (c6_next_spec poolsEx ⟨7, 100⟩).2 popRing (by decide) rfl
    simpa [popRing] using h
  · have h := (c6_next_spec poolsEx ⟨7, 200⟩).2 popRing (by decide) rfl
    simpa [popRing] using h

/-- C7: with a non-empty root list and a requested size not above the
current root size, `pmemobj_root` returns the current root OID and leaves
the pool (hence the root size) unchanged, regardless of the external
allocation collaborators; and `pmemobj_root_size` returns 0 exactly on an
empty root list and the OOB `size` of the root otherwise. -/
theorem c7_root_idempotent :
    (∀ (aR : PoolState → Nat → PoolState)
        (rR : PoolState → Nat → Option PoolState) (pop : PoolState)
        (S : Nat), pop.store.root.pe_first.off ≠ 0 →
        S ≤ pmemobj_root_size pop →
        pmemobj_root aR rR pop S = (pop.store.root.pe_first, pop)) ∧
    (∀ pop : PoolState, pop.store.root.pe_first.off = 0 →
        pmemobj_root_size pop = 0) ∧
    (∀ pop : PoolState, pop.store.root.pe_first.off ≠ 0 →
        pmemobj_root_size pop
          = (pop.oob pop.store.root.pe_first.off).size) := by
  refine ⟨fun aR rR pop S hne hle => ?_, fun pop h0 => ?_, fun pop hne => ?_⟩
  · rw [pmemobj_root, if_neg hne, if_neg (by omega)]
  · simp [pmemobj_root_size, h0]
  · simp [pmemobj_root_size, hne]

/-- A pool with a root object of size 100 at offset 64, used as a
concrete witness input. -/
def popRoot : PoolState :=
  { store := { bytype := fun _ => ⟨OID_NULL⟩, root := ⟨⟨7, 64⟩⟩ },
    oob := fun off =>
      if off = 64 then ⟨OP_ALLOC, 65535, 100, ⟨7, 64⟩, ⟨7, 64⟩⟩
      else ⟨0, 0, 0, OID_NULL, OID_NULL⟩ }

/-- C7 witness: a smaller re-request returns the same root OID and the
unchanged pool; root size reads 0 on an empty root list and the OOB size
otherwise. -/
theorem c7_witness :
    pmemobj_root (fun p _ => p) (fun p _ => some p) popRoot 50
        = (⟨7, 64⟩, popRoot) ∧
    pmemobj_root_size popEmpty = 0 ∧
    pmemobj_root_size popRoot = (popRoot.oob 64).size := by
  refine ⟨?_, c7_root_idempotent.2.1 popEmpty rfl, ?_⟩
  · exact c7_root_idempotent.1 (fun p _ => p) (fun p _ => some p) popRoot 50
      (by decide) (by norm_num [pmemobj_root_size, popRoot])
  · exact c7_root_idempotent.2.2 popRoot (by decide)

/-- C8: `pmemobj_strdup` with a valid type requests an allocation of
exactly `strlen s` bytes from the list primitive, with the strdup
constructor wrapped by the bytype constructor; that effective constructor
writes exactly the `strlen s` bytes of `s` into the payload and leaves
every byte at index `strlen s` or beyond untouched (no NUL terminator is
stored). -/
theorem c8_strdup_exact (ntypes : Nat) (lin : ListInsertNew)
    (pop : PoolState) (s : List Nat) (t : Int)
    (hv : ¬ (t < 0 ∨ (ntypes : Int) ≤ t)) :
    (pmemobj_strdup ntypes lin pop s t =
      (let r := lin pop t.toNat s.length
          (constructor_alloc_bytype t.toNat (some (constructor_strdup t.toNat s)));
        (r.1, none, r.2))) ∧
    (∀ (oob : OobHeader) (mem : Nat → Nat) (i : Nat), i < s.length →
      ((constructor_alloc_bytype t.toNat
          (some (constructor_strdup t.toNat s))) (oob, mem)).2 i
        = s.getD i 0) ∧
    (∀ (oob : OobHeader) (mem : Nat → Nat) (i : Nat), s.length ≤ i →
      ((constructor_alloc_bytype t.toNat
          (some (constructor_strdup t.toNat s))) (oob, mem)).2 i
        = mem i) := by
  refine ⟨?_, fun oob mem i hi => ?_, fun oob mem i hi => ?_⟩
  · rw [pmemobj_strdup, if_neg hv, pmemobj_alloc_construct, if_neg hv]
  · simp [constructor_alloc_bytype, constructor_strdup,
      memcpy_persist_model, hi]
  · simp [constructor_alloc_bytype, constructor_strdup,
      memcpy_persist_model, Nat.not_lt.2 hi]

/-- C8 witness: duplicating the two-byte string "Hi" (bytes 72, 105)
with type 3 among 8 types. -/
theorem c8_witness :
    pmemobj_strdup 8 linNop popEmpty [72, 105] 3
        = (OID_NULL, none, popEmpty) ∧
    (∀ (oob : OobHeader) (mem : Nat → Nat),
      ((constructor_alloc_bytype 3
          (some (constructor_strdup 3 [72, 105]))) (oob, mem)).2 0 = 72 ∧
      ((constructor_alloc_bytype 3
          (some (constructor_strdup 3 [72, 105]))) (oob, mem)).2 1 = 105 ∧
      ((constructor_alloc_bytype 3
          (some (constructor_strdup 3 [72, 105]))) (oob, mem)).2 2 = mem 2) := by
  have h := c8_strdup_exact 8 linNop popEmpty [72, 105] 3 (by decide)
  refine ⟨h.1.trans rfl, fun oob mem => ?_⟩
  exact ⟨h.2.1 oob mem 0 (by decide), h.2.1 oob mem 1 (by decide),
    h.2.2 oob mem 2 (by decide)⟩

/-- C10: `pmemobj_alloc_usable_size` on the null OID returns 0 for every
registry, allocator and OOB offset, i.e. without consulting any of
them. -/
theorem c10_usable_size_null (pools : Nat → Option PoolState)
    (pmallocUsable : PoolState → Nat → Nat) (oobOffset : Nat)
    (oid : PMEMoid) (h : oid.off = 0) :
    pmemobj_alloc_usable_size pools pmallocUsable oobOffset oid = some 0 := by
  simp [pmemobj_alloc_usable_size, h]

/-- C10 witness: instantiation at the null OID with an empty registry. -/
theorem c10_witness :
    pmemobj_alloc_usable_size (fun _ => none) (fun _ n => n) 64 OID_NULL
      = some 0 :=
  c10_usable_size_null (fun _ => none) (fun _ n => n) 64 OID_NULL rfl

end PMDKObj
